import Mathlib

/-!
A verification development for the funding-trading-bridge smart contract.

The contract bridges value between two marker denominations ("deposit" and
"trading") configured at independent decimal precisions.  The Lean
definitions below are a shallow embedding of the Rust sources:

* `src/types/denom.rs`           → `Denom`, `DenomConversion`
* `src/types/error.rs`           → `ContractError`
* `src/util/conversion_utils.rs` → `convert_denom`
* `src/util/validation_utils.rs` → `check_funds_are_empty`
* `src/util/provenance_utils.rs` → `check_account_has_all_attributes`,
  `check_account_has_enough_denom`, `get_marker_address_for_denom`,
  `msg_bind_name`
* `src/store/contract_state.rs`  → `ContractStateV1`, `get_contract_state_v1`
* `src/execute/fund_trading.rs`  → `fund_trading`
* `src/execute/withdraw_trading.rs` → `withdraw_trading`
* `src/execute/admin_update_*.rs` → the three admin operations
* `src/migrate/migrate_contract.rs` → `validate_migration`, `migrate_contract`
* `src/instantiate/instantiate_contract.rs` → `instantiate_contract`

Modelling conventions:

* `u128` and `u64` machine integers are modelled as `Nat`.  The arithmetic of
  `convert_denom` is exact over `Nat`; theorems about it carry explicit bounds
  (`precision < 2 ^ 63`, products `< 2 ^ 128`) restricting them to the domain
  where the Rust `u64 → i64` casts are value-preserving and no `u128`
  overflow can occur, so each theorem is a statement about the source
  behaviour and not about an out-of-range extension of the model.
* CosmWasm host capabilities (bank balance query, paged attribute query,
  marker lookup, address validation) are passed in explicitly as functions in
  a `QuerierEnv`; contract storage is the singleton `Option ContractStateV1`.
* Coin amounts arriving from the bank querier are represented numerically
  (the Rust code round-trips them through decimal strings with
  `amount.parse::<u128>()`; the parse-failure path for a malformed host
  response is not modelled).
* The attribute pagination loop of the source is a `while` loop with no
  iteration bound; it is embedded with an explicit fuel parameter, where a
  `none` result means the loop was still running after `fuel` pages.
-/

namespace FundingBridge

/-- From `src/types/denom.rs`: a marker denomination.  `name` is the on-chain
marker name; `precision` (a `Uint64` in the source) is the number of decimal
places the denom represents. -/
structure Denom where
  name : String
  precision : Nat
  deriving Repr, DecidableEq

/-- From `src/types/denom.rs`: the result record of a denom conversion. -/
structure DenomConversion where
  source_amount : Nat
  target_amount : Nat
  remainder : Nat
  deriving Repr, DecidableEq

/-- From `src/types/error.rs`: the contract's error enum.  Each variant keeps
its free-form diagnostic message.  `ParseIntError`, `SemVerError` and `Std`
wrap library errors in the source; they are modelled with message strings. -/
inductive ContractError where
  | ConversionError (message : String)
  | InvalidAccountError (message : String)
  | InvalidFormatError (message : String)
  | InvalidFundsError (message : String)
  | MigrationError (message : String)
  | NotAuthorizedError (message : String)
  | NotFoundError (message : String)
  | ParseIntError (message : String)
  | SemVerError (message : String)
  | Std (message : String)
  | StorageError (message : String)
  | ValidationError (message : String)
  deriving Repr, DecidableEq

/-- The absolute difference of the two precisions, as computed by
`convert_denom` in `src/util/conversion_utils.rs` via
`(source_precision as i64 - target_precision as i64).abs()`.  For precisions
below `2 ^ 63` the casts are value-preserving and the source computes exactly
this natural-number distance. -/
def precision_diff (source_precision target_precision : Nat) : Nat :=
  max source_precision target_precision - min source_precision target_precision

/-- From `src/util/conversion_utils.rs`, `convert_denom`.  Converts
`source_amount` of `source_denom` into `target_denom` by shifting by
`10 ^ precision_diff`.  The `u32::try_from` on the precision difference fails
with a `ConversionError` when the difference does not fit in a `u32`, which
over naturals is the `2 ^ 32` bound below.  The arithmetic is exact `Nat`
arithmetic; theorems carry the `u128` range side conditions. -/
def convert_denom (source_amount : Nat) (source_denom target_denom : Denom) :
    Except ContractError DenomConversion :=
  let source_precision := source_denom.precision
  let target_precision := target_denom.precision
  if 2 ^ 32 ≤ precision_diff source_precision target_precision then
    .error (.ConversionError
      "source precision and target precision have too large a difference to convert")
  else
    let precision_modifier := 10 ^ precision_diff source_precision target_precision
    let pair :=
      if target_precision < source_precision then
        -- Source precision greater: trim values off for the target amount.
        (source_amount / precision_modifier, source_amount % precision_modifier)
      else if source_precision < target_precision then
        -- Source precision lesser: append zeroes; never a remainder.
        (source_amount * precision_modifier, 0)
      else
        -- Equal precisions: 1 to 1 conversion.
        (source_amount, 0)
    .ok { source_amount := source_amount, target_amount := pair.1, remainder := pair.2 }

/-- From `cosmwasm_std`: a coin attached to a message or reported by the bank
querier.  The bank querier reports amounts as decimal strings in the source;
the numeric value is modelled directly. -/
structure Coin where
  denom : String
  amount : Nat
  deriving Repr, DecidableEq

/-- From `cosmwasm_std::MessageInfo`: the sender and the attached funds. -/
structure MessageInfo where
  sender : String
  funds : List Coin
  deriving Repr, DecidableEq

/-- From `cosmwasm_std::Env`: the only part the contract reads is its own
address. -/
structure EnvInfo where
  contract_address : String
  deriving Repr, DecidableEq

/-- From `src/util/validation_utils.rs`, `check_funds_are_empty`: fails with
an `InvalidFundsError` when any native funds were attached to the call. -/
def check_funds_are_empty (info : MessageInfo) : Except ContractError Unit :=
  if ¬ info.funds.isEmpty then
    .error (.InvalidFundsError "funds provided but empty funds required")
  else
    .ok ()

/-- Modelled from the spec: the compile-time crate-name constant
`CONTRACT_TYPE = env!("CARGO_CRATE_NAME")` in `src/store/contract_state.rs`.
The crate manifest is not under `src/`, so the concrete string is taken from
the repository name with the usual dash-to-underscore crate-name mangling.
No theorem depends on the particular string, only on the fields being this
fixed constant. -/
def CONTRACT_TYPE : String := "funding_trading_bridge_smart_contract"

/-- Modelled from the spec: the compile-time crate-version constant
`CONTRACT_VERSION = env!("CARGO_PKG_VERSION")` in
`src/store/contract_state.rs`.  The crate manifest is not under `src/`; the
migration theorems are stated for an arbitrary target version string, so no
theorem depends on this particular value. -/
def CONTRACT_VERSION : String := "1.0.0"

/-- From `src/store/contract_state.rs`: the singleton configuration record. -/
structure ContractStateV1 where
  admin : String
  contract_name : String
  contract_type : String
  contract_version : String
  deposit_marker : Denom
  trading_marker : Denom
  required_deposit_attributes : List String
  required_withdraw_attributes : List String
  deriving Repr, DecidableEq

/-- From `src/store/contract_state.rs`, `ContractStateV1::new`: builds the
record stored at instantiation, stamping the crate-name and crate-version
constants into `contract_type` and `contract_version`. -/
def ContractStateV1.new (admin : String) (contract_name : String)
    (deposit_marker trading_marker : Denom)
    (required_deposit_attributes required_withdraw_attributes : List String) :
    ContractStateV1 :=
  { admin := admin
    contract_name := contract_name
    contract_type := CONTRACT_TYPE
    contract_version := CONTRACT_VERSION
    deposit_marker := deposit_marker
    trading_marker := trading_marker
    required_deposit_attributes := required_deposit_attributes
    required_withdraw_attributes := required_withdraw_attributes }

/-- Contract storage: the `Item<ContractStateV1>` singleton of
`src/store/contract_state.rs`, present once state has been saved. -/
def Storage := Option ContractStateV1

/-- From `src/store/contract_state.rs`, `get_contract_state_v1`: loads the
singleton, failing with a `StorageError` when it has never been saved. -/
def get_contract_state_v1 (storage : Storage) :
    Except ContractError ContractStateV1 :=
  match storage with
  | some contract_state => .ok contract_state
  | none => .error (.StorageError "contract state not found")

/-- From `cosmos.base.query.v1beta1.PageResponse`: the pagination block of an
attribute query response; only `next_key` is inspected by the contract. -/
structure PageResponse where
  next_key : Option (List Nat)
  deriving Repr, DecidableEq

/-- From `provenance.attribute.v1.QueryAttributesResponse`: one page of
account attributes.  Only attribute names are inspected by the contract, so
each attribute is represented by its name. -/
structure AttrsResponse where
  attributes : List String
  page_block : Option PageResponse
  deriving Repr, DecidableEq

/-- The page-continuation test of `check_account_has_all_attributes` in
`src/util/provenance_utils.rs`: the loop fetches another page exactly when
`pagination.is_some()` and the contained `next_key` is non-empty, in which
case that key is the next request key.  (When `pagination` is `Some` but
`next_key` is `None` the source's `.unwrap()` panics; that host-misbehaviour
path is modelled as loop exit and is not relied on by any theorem.) -/
def next_page_key (resp : AttrsResponse) : Option (List Nat) :=
  match resp.page_block with
  | some page =>
      match page.next_key with
      | some key => if key.isEmpty then none else some key
      | none => none
  | none => none

/-- The host capabilities consumed by the contract, passed explicitly:
`balance` is the bank query of `check_account_has_enough_denom`; `attrs` is
the paged attribute query (account, optional page key) of
`check_account_has_all_attributes`; `marker` is the marker lookup of
`get_marker_address_for_denom` with protobuf decoding already applied; and
`addr_validate` is `deps.api.addr_validate`. -/
structure QuerierEnv where
  balance : String → String → Option Coin
  attrs : String → Option (List Nat) → AttrsResponse
  marker : String → Option (Option String)
  addr_validate : String → Bool

/-- The `while` loop of `check_account_has_all_attributes` in
`src/util/provenance_utils.rs`, with fuel counting fetched pages: each pass
removes from `remaining` every name present on the current page, succeeds
when nothing remains, follows a non-empty continuation key otherwise, and
fails with an `InvalidAccountError` when pages are exhausted with
requirements unmet.  A `none` result means the loop was still following
continuation keys after `fuel` pages. -/
def check_attrs_loop (querier : Option (List Nat) → AttrsResponse) :
    Nat → AttrsResponse → List String → Option (Except ContractError Unit)
  | 0, _, _ => none
  | fuel + 1, resp, remaining =>
    let remaining := remaining.filter (fun name => ! resp.attributes.contains name)
    if remaining.isEmpty then
      some (.ok ())
    else
      match next_page_key resp with
      | some key => check_attrs_loop querier fuel (querier (some key)) remaining
      | none =>
          some (.error (.InvalidAccountError
            "account does not have all required attributes"))

/-- From `src/util/provenance_utils.rs`, `check_account_has_all_attributes`:
succeeds immediately without querying when no attributes are required,
otherwise fetches the first page and runs the pagination loop. -/
def check_account_has_all_attributes
    (querier : Option (List Nat) → AttrsResponse) (attributes : List String)
    (fuel : Nat) : Option (Except ContractError Unit) :=
  if attributes.isEmpty then
    some (.ok ())
  else
    check_attrs_loop querier fuel (querier none) attributes

/-- From `src/util/provenance_utils.rs`, `check_account_has_enough_denom`:
queries the bank balance of `(account, denom)`; fails with an
`InvalidFundsError` when no balance entry exists, with an
`InvalidAccountError` when the balance is below `required_amount`, and
succeeds otherwise. -/
def check_account_has_enough_denom (q : QuerierEnv)
    (account denom : String) (required_amount : Nat) :
    Except ContractError Unit :=
  match q.balance account denom with
  | some coin =>
      if coin.amount < required_amount then
        .error (.InvalidAccountError
          ("required [" ++ toString required_amount ++
            "], but account only holds [" ++ toString coin.amount ++ "]"))
      else
        .ok ()
  | none =>
      .error (.InvalidFundsError
        ("account [" ++ account ++ "] has no [" ++ denom ++ "] balance"))

/-- From `src/util/provenance_utils.rs`, `get_marker_address_for_denom`:
resolves the bech32 address of the marker account backing `denom`.  The
querier yields `none` when no marker exists (the source's "unable to query
marker by name" case, which also covers a failed protobuf decode), and
`some none` when the decoded marker account has no base account. -/
def get_marker_address_for_denom (q : QuerierEnv) (denom : String) :
    Except ContractError String :=
  match q.marker denom with
  | some (some address) => .ok address
  | some none =>
      .error (.NotFoundError
        ("unable to resolve base account from marker account [" ++ denom ++ "]"))
  | none =>
      .error (.NotFoundError ("unable to query marker by name [" ++ denom ++ "]"))

/-- From `provenance.name.v1.NameRecord`: one record of a name-binding
message. -/
structure NameRecord where
  name : String
  address : String
  restricted : Bool
  deriving Repr, DecidableEq

/-- The settlement instructions the contract emits, tagged variants of the
provwasm messages used by the source: `MsgTransferRequest`, `MsgMintRequest`,
`MsgWithdrawRequest`, `MsgBurnRequest` and `MsgBindNameRequest`. -/
inductive ProvenanceMsg where
  | transfer (administrator : String) (amount : Coin)
      (from_address to_address : String)
  | mint (administrator : String) (amount : Coin)
  | withdraw (denom administrator to_address : String) (amount : List Coin)
  | burn (administrator : String) (amount : Coin)
  | bind_name (record : Option NameRecord) (parent : Option NameRecord)
  deriving Repr, DecidableEq

/-- From `cosmwasm_std::Response`: the ordered messages, the flat attribute
log, and the optional data payload (used only by migration, where it carries
the serialized post-migration configuration). -/
structure Response where
  messages : List ProvenanceMsg
  attributes : List (String × String)
  data : Option ContractStateV1
  deriving Repr, DecidableEq

/-- From `src/execute/fund_trading.rs`, `fund_trading`, with the source's
step order: funds-empty check, state load, required-deposit-attribute check,
conversion deposit→trading, zero-target rejection, then the balance check
against `transferred_amount = trade_amount - conversion.remainder`, and
finally the transfer/mint/withdraw instruction sequence.  A `none` result
means the attribute pagination loop was still running after `fuel` pages. -/
def fund_trading (env : EnvInfo) (q : QuerierEnv) (storage : Storage)
    (info : MessageInfo) (trade_amount : Nat) (fuel : Nat) :
    Option (Except ContractError Response) :=
  match check_funds_are_empty info with
  | .error e => some (.error e)
  | .ok () =>
  match get_contract_state_v1 storage with
  | .error e => some (.error e)
  | .ok contract_state =>
  match check_account_has_all_attributes (q.attrs info.sender)
      contract_state.required_deposit_attributes fuel with
  | none => none
  | some (.error e) => some (.error e)
  | some (.ok ()) =>
  match convert_denom trade_amount contract_state.deposit_marker
      contract_state.trading_marker with
  | .error e => some (.error e)
  | .ok conversion =>
  if conversion.target_amount = 0 then
    some (.error (.InvalidFundsError
      ("sent [" ++ toString trade_amount ++ contract_state.deposit_marker.name ++
        "], but that is not enough to convert to at least one [" ++
        contract_state.trading_marker.name ++ "]")))
  else
    -- Transfer the requested total minus the remainder that cannot convert.
    let transferred_amount := trade_amount - conversion.remainder
    match check_account_has_enough_denom q info.sender
        contract_state.deposit_marker.name transferred_amount with
    | .error e => some (.error e)
    | .ok () =>
      let transfer_msg := ProvenanceMsg.transfer env.contract_address
        { denom := contract_state.deposit_marker.name, amount := transferred_amount }
        info.sender env.contract_address
      let minted_coin : Coin :=
        { denom := contract_state.trading_marker.name
          amount := conversion.target_amount }
      let mint_msg := ProvenanceMsg.mint env.contract_address minted_coin
      let withdraw_msg := ProvenanceMsg.withdraw
        contract_state.trading_marker.name env.contract_address info.sender
        [minted_coin]
      some (.ok
        { messages := [transfer_msg, mint_msg, withdraw_msg]
          attributes :=
            [("action", "fund_trading"),
             ("contract_address", env.contract_address),
             ("contract_type", CONTRACT_TYPE),
             ("contract_name", contract_state.contract_name),
             ("deposit_input_denom", contract_state.deposit_marker.name),
             ("deposit_requested_amount", toString trade_amount),
             ("deposit_actual_amount", toString transferred_amount),
             ("received_denom", minted_coin.denom),
             ("received_amount", toString minted_coin.amount)]
          data := none })

/-- From `src/execute/withdraw_trading.rs`, `withdraw_trading`, with the
source's step order: funds-empty check, state load,
required-withdraw-attribute check, conversion trading→deposit, zero-target
rejection, balance check against
`collected_amount = trade_amount - conversion.remainder`, marker-address
lookup for the trading denom, then the collect/release/burn instruction
sequence. -/
def withdraw_trading (env : EnvInfo) (q : QuerierEnv) (storage : Storage)
    (info : MessageInfo) (trade_amount : Nat) (fuel : Nat) :
    Option (Except ContractError Response) :=
  match check_funds_are_empty info with
  | .error e => some (.error e)
  | .ok () =>
  match get_contract_state_v1 storage with
  | .error e => some (.error e)
  | .ok contract_state =>
  match check_account_has_all_attributes (q.attrs info.sender)
      contract_state.required_withdraw_attributes fuel with
  | none => none
  | some (.error e) => some (.error e)
  | some (.ok ()) =>
  match convert_denom trade_amount contract_state.trading_marker
      contract_state.deposit_marker with
  | .error e => some (.error e)
  | .ok conversion =>
  if conversion.target_amount = 0 then
    some (.error (.InvalidFundsError
      ("sent [" ++ toString trade_amount ++ contract_state.trading_marker.name ++
        "], but that is not enough to convert to at least one [" ++
        contract_state.deposit_marker.name ++ "]")))
  else
    let collected_amount := trade_amount - conversion.remainder
    match check_account_has_enough_denom q info.sender
        contract_state.trading_marker.name collected_amount with
    | .error e => some (.error e)
    | .ok () =>
      match get_marker_address_for_denom q contract_state.trading_marker.name with
      | .error e => some (.error e)
      | .ok marker_address =>
        -- Collect the traded amount from the sender directly to the marker,
        -- staging it for the burn.
        let collect_funds_msg := ProvenanceMsg.transfer env.contract_address
          { denom := contract_state.trading_marker.name, amount := collected_amount }
          info.sender marker_address
        -- Release the converted amount of deposit denom back to the sender.
        let release_funds_msg := ProvenanceMsg.transfer env.contract_address
          { denom := contract_state.deposit_marker.name
            amount := conversion.target_amount }
          env.contract_address info.sender
        -- Burn everything collected; the remainder never left the sender.
        let burn_msg := ProvenanceMsg.burn env.contract_address
          { denom := contract_state.trading_marker.name, amount := collected_amount }
        some (.ok
          { messages := [collect_funds_msg, release_funds_msg, burn_msg]
            attributes :=
              [("action", "withdraw_trading"),
               ("contract_address", env.contract_address),
               ("contract_type", CONTRACT_TYPE),
               ("contract_name", contract_state.contract_name),
               ("withdraw_input_denom", contract_state.trading_marker.name),
               ("withdraw_input_amount", toString trade_amount),
               ("withdraw_actual_amount", toString collected_amount),
               ("received_denom", contract_state.deposit_marker.name),
               ("received_amount", toString conversion.target_amount)]
            data := none })

/-- From `src/execute/admin_update_admin.rs`, `admin_update_admin`: gated on
empty funds and on the sender being the stored admin; validates the new
address, swaps it into the configuration and persists.  Success returns the
response together with the updated storage; an error performs no write. -/
def admin_update_admin (env : EnvInfo) (q : QuerierEnv) (storage : Storage)
    (info : MessageInfo) (new_admin_address : String) :
    Except ContractError (Response × Storage) :=
  match check_funds_are_empty info with
  | .error e => .error e
  | .ok () =>
  match get_contract_state_v1 storage with
  | .error e => .error e
  | .ok contract_state =>
  if info.sender ≠ contract_state.admin then
    .error (.NotAuthorizedError "only the contract admin may change the admin")
  else
    let previous_admin_addr := contract_state.admin
    if q.addr_validate new_admin_address then
      let new_state := { contract_state with admin := new_admin_address }
      .ok
        ({ messages := []
           attributes :=
             [("action", "admin_update_admin"),
              ("contract_address", env.contract_address),
              ("contract_type", CONTRACT_TYPE),
              ("contract_name", new_state.contract_name),
              ("previous_admin", previous_admin_addr),
              ("new_admin", new_admin_address)]
           data := none },
         some new_state)
    else
      .error (.Std "invalid bech32 address")

/-- From `src/execute/admin_update_deposit_required_attributes.rs`: same
funds/authorization gate; wholesale replacement of
`required_deposit_attributes`, reporting previous and new lists
comma-joined. -/
def admin_update_deposit_required_attributes (env : EnvInfo)
    (storage : Storage) (info : MessageInfo) (attributes : List String) :
    Except ContractError (Response × Storage) :=
  match check_funds_are_empty info with
  | .error e => .error e
  | .ok () =>
  match get_contract_state_v1 storage with
  | .error e => .error e
  | .ok contract_state =>
  if info.sender ≠ contract_state.admin then
    .error (.NotAuthorizedError "only the contract admin may update attributes")
  else
    let previous_attributes := contract_state.required_deposit_attributes
    let new_state := { contract_state with required_deposit_attributes := attributes }
    .ok
      ({ messages := []
         attributes :=
           [("action", "admin_update_deposit_required_attributes"),
            ("contract_address", env.contract_address),
            ("contract_type", CONTRACT_TYPE),
            ("contract_name", new_state.contract_name),
            ("previous_attributes", String.intercalate "," previous_attributes),
            ("new_attributes", String.intercalate "," attributes)]
         data := none },
       some new_state)

/-- From `src/execute/admin_update_withdraw_required_attributes.rs`: same
gate; wholesale replacement of `required_withdraw_attributes`, reporting
previous and new lists comma-joined inside square brackets. -/
def admin_update_withdraw_required_attributes (env : EnvInfo)
    (storage : Storage) (info : MessageInfo) (attributes : List String) :
    Except ContractError (Response × Storage) :=
  match check_funds_are_empty info with
  | .error e => .error e
  | .ok () =>
  match get_contract_state_v1 storage with
  | .error e => .error e
  | .ok contract_state =>
  if info.sender ≠ contract_state.admin then
    .error (.NotAuthorizedError "only the contract admin may update attributes")
  else
    let previous_attributes := contract_state.required_withdraw_attributes
    let new_state := { contract_state with required_withdraw_attributes := attributes }
    .ok
      ({ messages := []
         attributes :=
           [("action", "admin_update_withdraw_required_attributes"),
            ("contract_address", env.contract_address),
            ("contract_type", CONTRACT_TYPE),
            ("contract_name", new_state.contract_name),
            ("previous_attributes",
              "[" ++ String.intercalate "," previous_attributes ++ "]"),
            ("new_attributes", "[" ++ String.intercalate "," attributes ++ "]")]
         data := none },
       some new_state)

/-- A parsed semantic version, as compared by the `semver` crate in
`src/migrate/migrate_contract.rs`.  Pre-release and build metadata are not
modelled; `parse_version` accepts exactly the plain `major.minor.patch`
numeric form. -/
structure Version where
  major : Nat
  minor : Nat
  patch : Nat
  deriving Repr, DecidableEq

/-- Strict semantic-version order on plain `major.minor.patch` versions:
lexicographic on the three numeric components. -/
def version_lt (a b : Version) : Bool :=
  if a.major ≠ b.major then decide (a.major < b.major)
  else if a.minor ≠ b.minor then decide (a.minor < b.minor)
  else decide (a.patch < b.patch)

/-- Splits a character list at `'.'` separators; the segment structure used
by the semantic-version parse. -/
def split_on_dot : List Char → List (List Char)
  | [] => [[]]
  | c :: cs =>
    if c = '.' then
      [] :: split_on_dot cs
    else
      match split_on_dot cs with
      | [] => [[c]]
      | part :: parts => (c :: part) :: parts

/-- Accumulates decimal digits; fails on any non-digit character. -/
def digits_to_nat_core : List Char → Nat → Option Nat
  | [], acc => some acc
  | c :: cs, acc =>
    if c.isDigit then
      digits_to_nat_core cs (acc * 10 + (c.toNat - 48))
    else
      none

/-- Parses a non-empty all-digit character list as a natural number. -/
def digits_to_nat : List Char → Option Nat
  | [] => none
  | cs => digits_to_nat_core cs 0

/-- Parses a plain `major.minor.patch` semantic version string, the form the
contract's own version stamps take.  Returns `none` (the source's
`SemVerError` path) when the string is not three dot-separated numbers;
pre-release and build suffixes accepted by the `semver` crate are outside the
modelled grammar. -/
def parse_version (s : String) : Option Version :=
  match (split_on_dot s.data).map digits_to_nat with
  | [some major, some minor, some patch] =>
      some { major := major, minor := minor, patch := patch }
  | _ => none

/-- From `src/migrate/migrate_contract.rs`, `validate_migration`, with the
source's fixed `CONTRACT_TYPE` / `CONTRACT_VERSION` constants made explicit
parameters `target_type` / `target_version`: rejects with a `MigrationError`
when the stored contract type differs from the target type, then parses both
versions (a parse failure is the wrapped `SemVerError`), and rejects with a
`MigrationError` unless the stored version is strictly below the target. -/
def validate_migration (target_type target_version : String)
    (contract_state : ContractStateV1) : Except ContractError Unit :=
  if target_type ≠ contract_state.contract_type then
    .error (.MigrationError
      ("target migration contract type [" ++ target_type ++
        "] does not match stored contract type [" ++
        contract_state.contract_type ++ "]"))
  else
    match parse_version contract_state.contract_version with
    | none => .error (.SemVerError "unexpected character in stored version")
    | some existing_contract_version =>
      match parse_version target_version with
      | none => .error (.SemVerError "unexpected character in target version")
      | some new_contract_version =>
        if version_lt existing_contract_version new_contract_version then
          .ok ()
        else
          .error (.MigrationError
            ("target migration contract version [" ++ target_version ++
              "] is too low to use. stored contract version is [" ++
              contract_state.contract_version ++ "]"))

/-- From `src/migrate/migrate_contract.rs`, `migrate_contract` with the
target constants as explicit parameters: loads the state, validates the
migration, stamps the target version into the configuration, persists it,
and responds with the migrate attributes and the updated configuration as
data payload. -/
def migrate_contract (target_type target_version : String)
    (storage : Storage) : Except ContractError (Response × Storage) :=
  match get_contract_state_v1 storage with
  | .error e => .error e
  | .ok contract_state =>
  match validate_migration target_type target_version contract_state with
  | .error e => .error e
  | .ok () =>
    let new_state := { contract_state with contract_version := target_version }
    .ok
      ({ messages := []
         attributes := [("action", "migrate"), ("new_version", target_version)]
         data := some new_state },
       some new_state)

/-- From `src/types/msg.rs`, `InstantiateMsg`: the instantiation request.
Note the field set: it carries no admin field; the admin is always the
message sender. -/
structure InstantiateMsg where
  contract_name : String
  deposit_marker : Denom
  trading_marker : Denom
  required_deposit_attributes : List String
  required_withdraw_attributes : List String
  name_to_bind : Option String
  deriving Repr, DecidableEq

/-- From `src/util/provenance_utils.rs`, `msg_bind_name`: splits the
dot-qualified name, binds the head segment to `bind_to_address`, and, when a
parent path remains, adds an unrestricted parent record at the same
address. -/
def msg_bind_name (name bind_to_address : String) (restricted : Bool) :
    Except ContractError ProvenanceMsg :=
  let name_parts := name.splitOn "."
  match name_parts with
  | [] =>
      .error (.InvalidFormatError
        ("cannot derive bind name from input [" ++ name ++ "]"))
  | bind :: rest =>
    if bind.isEmpty then
      .error (.InvalidFormatError
        ("cannot bind to an empty name string [" ++ name ++ "]"))
    else
      let bind_record : NameRecord :=
        { name := bind, address := bind_to_address, restricted := restricted }
      let parent_record : Option NameRecord :=
        if rest.isEmpty then none
        else some
          { name := String.intercalate "." rest
            address := bind_to_address
            restricted := false }
      .ok (.bind_name (some bind_record) parent_record)

/-- From `src/instantiate/instantiate_contract.rs`, `instantiate_contract`:
after the funds-empty check, stores a fresh `ContractStateV1` whose admin is
`info.sender`, then responds with the instantiate attributes and, when
`name_to_bind` is given, the name-binding message.  Success returns the
response with the written storage; an error leaves nothing persisted (the
host discards the call's writes). -/
def instantiate_contract (env : EnvInfo) (info : MessageInfo)
    (msg : InstantiateMsg) : Except ContractError (Response × Storage) :=
  match check_funds_are_empty info with
  | .error e => .error e
  | .ok () =>
    let contract_state := ContractStateV1.new info.sender msg.contract_name
      msg.deposit_marker msg.trading_marker msg.required_deposit_attributes
      msg.required_withdraw_attributes
    let base_attributes :=
      [("action", "instantiate"),
       ("contract_name", msg.contract_name),
       ("deposit_marker_name", msg.deposit_marker.name),
       ("trading_marker_name", msg.trading_marker.name)]
    match msg.name_to_bind with
    | some name =>
      match msg_bind_name name env.contract_address true with
      | .error e => .error e
      | .ok bind_msg =>
        .ok
          ({ messages := [bind_msg]
             attributes := base_attributes ++ [("contract_bound_with_name", name)]
             data := none },
           some contract_state)
    | none =>
        .ok
          ({ messages := [], attributes := base_attributes, data := none },
           some contract_state)

/-- `convert_denom` in the downscale regime (source precision greater):
floor-divide by the factor and keep the residue as remainder. -/
theorem convert_denom_down_eq (a : Nat) (s t : Denom)
    (h : t.precision < s.precision)
    (hd : precision_diff s.precision t.precision < 2 ^ 32) :
    convert_denom a s t =
      .ok ⟨a, a / 10 ^ (s.precision - t.precision),
        a % 10 ^ (s.precision - t.precision)⟩ := by
  have hfe : precision_diff s.precision t.precision = s.precision - t.precision := by
    unfold precision_diff
    omega
  simp only [convert_denom, hfe]
  rw [if_neg (by omega), if_pos h]

/-- `convert_denom` in the upscale regime (source precision lesser): multiply
by the factor, no remainder. -/
theorem convert_denom_up_eq (a : Nat) (s t : Denom)
    (h : s.precision < t.precision)
    (hd : precision_diff s.precision t.precision < 2 ^ 32) :
    convert_denom a s t =
      .ok ⟨a, a * 10 ^ (t.precision - s.precision), 0⟩ := by
  have hfe : precision_diff s.precision t.precision = t.precision - s.precision := by
    unfold precision_diff
    omega
  simp only [convert_denom, hfe]
  rw [if_neg (by omega), if_neg (by omega), if_pos h]

/-- `convert_denom` at equal precisions: the identity conversion. -/
theorem convert_denom_same_eq (a : Nat) (s t : Denom)
    (h : s.precision = t.precision) :
    convert_denom a s t = .ok ⟨a, a, 0⟩ := by
  have hfe : precision_diff s.precision t.precision = 0 := by
    unfold precision_diff
    omega
  simp only [convert_denom, hfe]
  rw [if_neg (by omega), if_neg (by omega), if_neg (by omega)]

/-- C1: for every amount `a` and denoms with `diff` the absolute precision
difference and `factor = 10 ^ diff`, `convert_denom` succeeds and returns
exactly `a / factor` with remainder `a % factor` when the source precision is
greater, `a * factor` with remainder `0` when it is lesser, and `a` with
remainder `0` at equal precisions; in the downscale case
`target_amount * factor + remainder = a` and `remainder < factor`.  The
hypotheses confine the statement to the domain where the Rust `u64 → i64`
precision casts are value-preserving and the `u128` factor and product cannot
overflow. -/
theorem convert_denom_spec (a : Nat) (s t : Denom)
    (hs : s.precision < 2 ^ 63) (ht : t.precision < 2 ^ 63)
    (hfac : 10 ^ precision_diff s.precision t.precision < 2 ^ 128)
    (hmul : s.precision < t.precision →
      a * 10 ^ (t.precision - s.precision) < 2 ^ 128) :
    ∃ c, convert_denom a s t = .ok c ∧ c.source_amount = a ∧
      (t.precision < s.precision →
        c.target_amount = a / 10 ^ (s.precision - t.precision) ∧
        c.remainder = a % 10 ^ (s.precision - t.precision) ∧
        c.target_amount * 10 ^ (s.precision - t.precision) + c.remainder = a ∧
        c.remainder < 10 ^ (s.precision - t.precision)) ∧
      (s.precision < t.precision →
        c.target_amount = a * 10 ^ (t.precision - s.precision) ∧
        c.remainder = 0) ∧
      (s.precision = t.precision → c.target_amount = a ∧ c.remainder = 0) := by
  have hd : precision_diff s.precision t.precision < 2 ^ 32 := by
    have h2 : 2 ^ precision_diff s.precision t.precision ≤
        10 ^ precision_diff s.precision t.precision :=
      Nat.pow_le_pow_left (by norm_num) _
    have h128 : precision_diff s.precision t.precision < 128 :=
      (Nat.pow_lt_pow_iff_right (by norm_num : 1 < 2)).mp
        (lt_of_le_of_lt h2 hfac)
    have : (128 : Nat) < 2 ^ 32 := by norm_num
    omega
  rcases lt_trichotomy s.precision t.precision with hlt | heq | hgt
  · refine ⟨_, convert_denom_up_eq a s t hlt hd, rfl, ?_, ?_, ?_⟩
    · intro h
      omega
    · intro _
      exact ⟨rfl, rfl⟩
    · intro h
      omega
  · refine ⟨_, convert_denom_same_eq a s t heq, rfl, ?_, ?_, ?_⟩
    · intro h
      omega
    · intro h
      omega
    · intro _
      exact ⟨rfl, rfl⟩
  · refine ⟨_, convert_denom_down_eq a s t hgt hd, rfl, ?_, ?_, ?_⟩
    · intro _
      refine ⟨rfl, rfl, ?_, ?_⟩
      · show a / 10 ^ (s.precision - t.precision) * 10 ^ (s.precision - t.precision) +
          a % 10 ^ (s.precision - t.precision) = a
        rw [Nat.mul_comm]
        exact Nat.div_add_mod a (10 ^ (s.precision - t.precision))
      · show a % 10 ^ (s.precision - t.precision) < 10 ^ (s.precision - t.precision)
        exact Nat.mod_lt _ (Nat.pos_pow_of_pos _ (by norm_num))
    · intro h
      omega
    · intro h
      omega

/-- Concrete deposit denom (precision 2) used by the conversion witnesses. -/
def deposit_prec2 : Denom := { name := "deposit", precision := 2 }

/-- Concrete trading denom (precision 1) used by the conversion witnesses. -/
def trading_prec1 : Denom := { name := "trading", precision := 1 }

/-- Witness for C1 at the spec's scenario: 103 at deposit precision 2 →
trading precision 1 gives target 10, remainder 3. -/
theorem convert_denom_spec_witness :
    deposit_prec2.precision < 2 ^ 63 ∧
    trading_prec1.precision < 2 ^ 63 ∧
    10 ^ precision_diff deposit_prec2.precision trading_prec1.precision < 2 ^ 128 ∧
    (deposit_prec2.precision < trading_prec1.precision →
      103 * 10 ^ (trading_prec1.precision - deposit_prec2.precision) < 2 ^ 128) ∧
    (∃ c, convert_denom 103 deposit_prec2 trading_prec1 = .ok c ∧
      c.source_amount = 103 ∧
      (trading_prec1.precision < deposit_prec2.precision →
        c.target_amount =
          103 / 10 ^ (deposit_prec2.precision - trading_prec1.precision) ∧
        c.remainder =
          103 % 10 ^ (deposit_prec2.precision - trading_prec1.precision) ∧
        c.target_amount *
            10 ^ (deposit_prec2.precision - trading_prec1.precision) +
          c.remainder = 103 ∧
        c.remainder < 10 ^ (deposit_prec2.precision - trading_prec1.precision)) ∧
      (deposit_prec2.precision < trading_prec1.precision →
        c.target_amount =
          103 * 10 ^ (trading_prec1.precision - deposit_prec2.precision) ∧
        c.remainder = 0) ∧
      (deposit_prec2.precision = trading_prec1.precision →
        c.target_amount = 103 ∧ c.remainder = 0)) :=
  ⟨by decide, by decide, by decide, by decide,
    convert_denom_spec 103 deposit_prec2 trading_prec1 (by decide) (by decide)
      (by decide) (by decide)⟩

/-- A successful `convert_denom` implies the precision difference passed the
`u32::try_from` bound. -/
theorem convert_denom_ok_diff_lt (a : Nat) (s t : Denom) (c : DenomConversion)
    (h : convert_denom a s t = .ok c) :
    precision_diff s.precision t.precision < 2 ^ 32 := by
  by_contra hge
  simp only [convert_denom] at h
  rw [if_pos (by omega)] at h
  exact Except.noConfusion h

/-- C6: a round trip of fund (convert deposit→trading, moving
`a - c1.remainder` and minting `c1.target_amount`) followed by withdraw of
the minted amount (convert trading→deposit, releasing `c2.target_amount`)
returns at most the deposit value moved in, with truncation loss at most
`(factor_fund - 1) + (factor_withdraw - 1)`. -/
theorem round_trip_value_conservation (a : Nat) (dep trad : Denom)
    (c1 c2 : DenomConversion)
    (h1 : convert_denom a dep trad = .ok c1)
    (h2 : convert_denom c1.target_amount trad dep = .ok c2) :
    c2.target_amount ≤ a - c1.remainder ∧
    (a - c1.remainder) - c2.target_amount ≤
      (10 ^ precision_diff dep.precision trad.precision - 1) +
        (10 ^ precision_diff trad.precision dep.precision - 1) := by
  have hd1 := convert_denom_ok_diff_lt a dep trad c1 h1
  have hpos : 0 < 10 ^ (trad.precision - dep.precision) :=
    Nat.pos_pow_of_pos _ (by norm_num)
  rcases lt_trichotomy dep.precision trad.precision with hlt | heq | hgt
  · -- Fund upscales exactly; withdraw downscales the exact multiple back.
    rw [convert_denom_up_eq a dep trad hlt hd1, Except.ok.injEq] at h1
    have hd2 : precision_diff trad.precision dep.precision < 2 ^ 32 := by
      unfold precision_diff at hd1 ⊢
      omega
    rw [← h1] at h2
    dsimp only at h2
    rw [convert_denom_down_eq _ trad dep hlt hd2, Except.ok.injEq] at h2
    rw [← h1, ← h2]
    dsimp only
    rw [Nat.mul_div_cancel a hpos]
    omega
  · -- Equal precisions both ways: the identity round trip.
    rw [convert_denom_same_eq a dep trad heq, Except.ok.injEq] at h1
    rw [← h1] at h2
    dsimp only at h2
    rw [convert_denom_same_eq a trad dep heq.symm, Except.ok.injEq] at h2
    rw [← h1, ← h2]
    dsimp only
    omega
  · -- Fund truncates; withdraw upscales the truncated amount exactly.
    rw [convert_denom_down_eq a dep trad hgt hd1, Except.ok.injEq] at h1
    have hd2 : precision_diff trad.precision dep.precision < 2 ^ 32 := by
      unfold precision_diff at hd1 ⊢
      omega
    rw [← h1] at h2
    dsimp only at h2
    rw [convert_denom_up_eq _ trad dep hgt hd2, Except.ok.injEq] at h2
    rw [← h1, ← h2]
    dsimp only
    have hdm : a / 10 ^ (dep.precision - trad.precision) *
        10 ^ (dep.precision - trad.precision) +
        a % 10 ^ (dep.precision - trad.precision) = a := by
      rw [Nat.mul_comm]
      exact Nat.div_add_mod a (10 ^ (dep.precision - trad.precision))
    omega

/-- Witness for C6 at the fund scenario 103 with precisions 2 → 1: the fund
conversion gives (10, remainder 3), the withdraw conversion of the minted 10
gives back exactly the 100 units moved in, so nothing is gained and the loss
is within the truncation bound. -/
theorem round_trip_value_conservation_witness :
    convert_denom 103 deposit_prec2 trading_prec1 =
      .ok ⟨103, 10, 3⟩ ∧
    convert_denom (DenomConversion.mk 103 10 3).target_amount trading_prec1
        deposit_prec2 = .ok ⟨10, 100, 0⟩ ∧
    ((DenomConversion.mk 10 100 0).target_amount ≤
        103 - (DenomConversion.mk 103 10 3).remainder ∧
      (103 - (DenomConversion.mk 103 10 3).remainder) -
          (DenomConversion.mk 10 100 0).target_amount ≤
        (10 ^ precision_diff deposit_prec2.precision trading_prec1.precision - 1) +
          (10 ^ precision_diff trading_prec1.precision deposit_prec2.precision
            - 1)) :=
  ⟨by rfl, by rfl,
    round_trip_value_conservation 103 deposit_prec2 trading_prec1
      ⟨103, 10, 3⟩ ⟨10, 100, 0⟩ (by rfl) (by rfl)⟩

/-- C3: every successful `fund_trading` emits exactly, in order, the deposit
transfer of `trade_amount - remainder` from the sender to the contract, the
mint of `target_amount` trading denom administered by the contract, and the
withdraw of the minted `target_amount` to the sender. -/
theorem fund_trading_messages (env : EnvInfo) (q : QuerierEnv)
    (st : ContractStateV1) (info : MessageInfo) (trade_amount fuel : Nat)
    (conversion : DenomConversion) (coin : Coin)
    (hfunds : info.funds = [])
    (hattrs : check_account_has_all_attributes (q.attrs info.sender)
      st.required_deposit_attributes fuel = some (.ok ()))
    (hconv : convert_denom trade_amount st.deposit_marker st.trading_marker =
      .ok conversion)
    (htarget : conversion.target_amount ≠ 0)
    (hbal : q.balance info.sender st.deposit_marker.name = some coin)
    (hge : trade_amount - conversion.remainder ≤ coin.amount) :
    ∃ r, fund_trading env q (some st) info trade_amount fuel = some (.ok r) ∧
      r.messages =
        [.transfer env.contract_address
            ⟨st.deposit_marker.name, trade_amount - conversion.remainder⟩
            info.sender env.contract_address,
         .mint env.contract_address
            ⟨st.trading_marker.name, conversion.target_amount⟩,
         .withdraw st.trading_marker.name env.contract_address info.sender
            [⟨st.trading_marker.name, conversion.target_amount⟩]] := by
  have hfunds' : check_funds_are_empty info = .ok () := by
    simp [check_funds_are_empty, hfunds]
  have hbal' : check_account_has_enough_denom q info.sender
      st.deposit_marker.name (trade_amount - conversion.remainder) = .ok () := by
    simp [check_account_has_enough_denom, hbal, not_lt.mpr hge]
  refine
    ⟨{ messages :=
        [.transfer env.contract_address
            ⟨st.deposit_marker.name, trade_amount - conversion.remainder⟩
            info.sender env.contract_address,
         .mint env.contract_address
            ⟨st.trading_marker.name, conversion.target_amount⟩,
         .withdraw st.trading_marker.name env.contract_address info.sender
            [⟨st.trading_marker.name, conversion.target_amount⟩]]
       attributes :=
        [("action", "fund_trading"),
         ("contract_address", env.contract_address),
         ("contract_type", CONTRACT_TYPE),
         ("contract_name", st.contract_name),
         ("deposit_input_denom", st.deposit_marker.name),
         ("deposit_requested_amount", toString trade_amount),
         ("deposit_actual_amount", toString (trade_amount - conversion.remainder)),
         ("received_denom", st.trading_marker.name),
         ("received_amount", toString conversion.target_amount)]
       data := none }, ?_, rfl⟩
  simp only [fund_trading, hfunds', get_contract_state_v1, hattrs, hconv, hbal']
  rw [if_neg htarget]

/-- C2 (amended): once the funds, attribute and nonzero-conversion gates have
passed, `fund_trading` checks the sender's deposit-denom balance against
`transferred_amount = trade_amount - conversion.remainder`, and fails with an
`InvalidAccountError` (emitting no instructions) whenever a balance entry
exists but is below that amount. -/
theorem fund_trading_insufficient_balance (env : EnvInfo) (q : QuerierEnv)
    (st : ContractStateV1) (info : MessageInfo) (trade_amount fuel : Nat)
    (conversion : DenomConversion) (coin : Coin)
    (hfunds : info.funds = [])
    (hattrs : check_account_has_all_attributes (q.attrs info.sender)
      st.required_deposit_attributes fuel = some (.ok ()))
    (hconv : convert_denom trade_amount st.deposit_marker st.trading_marker =
      .ok conversion)
    (htarget : conversion.target_amount ≠ 0)
    (hbal : q.balance info.sender st.deposit_marker.name = some coin)
    (hlt : coin.amount < trade_amount - conversion.remainder) :
    fund_trading env q (some st) info trade_amount fuel =
      some (.error (.InvalidAccountError
        ("required [" ++ toString (trade_amount - conversion.remainder) ++
          "], but account only holds [" ++ toString coin.amount ++ "]"))) := by
  have hfunds' : check_funds_are_empty info = .ok () := by
    simp [check_funds_are_empty, hfunds]
  have hbal' : check_account_has_enough_denom q info.sender
      st.deposit_marker.name (trade_amount - conversion.remainder) =
      .error (.InvalidAccountError
        ("required [" ++ toString (trade_amount - conversion.remainder) ++
          "], but account only holds [" ++ toString coin.amount ++ "]")) := by
    simp [check_account_has_enough_denom, hbal, hlt]
  simp only [fund_trading, hfunds', get_contract_state_v1, hattrs, hconv, hbal']
  rw [if_neg htarget]

/-- Concrete environment for the instruction-level scenarios. -/
def test_env : EnvInfo := { contract_address := "contract" }

/-- Concrete deposit denom at precision 3 (the partial-balance scenario). -/
def deposit_prec3 : Denom := { name := "deposit", precision := 3 }

/-- Concrete trading denom at precision 3 (the withdraw scenario). -/
def trading_prec3 : Denom := { name := "trading", precision := 3 }

/-- A single-page attribute host: every query returns the given names with no
continuation. -/
def attrs_single_page (names : List String) :
    String → Option (List Nat) → AttrsResponse :=
  fun _ _ => { attributes := names, page_block := none }

/-- A concrete querier holding `amount` of the denom asked for, carrying both
scenario attributes, and backing the trading marker at a fixed address. -/
def test_querier (amount : Nat) : QuerierEnv :=
  { balance := fun _ denom => some { denom := denom, amount := amount }
    attrs := attrs_single_page ["depattr", "withattr"]
    marker := fun _ => some (some "trading-marker-addr")
    addr_validate := fun _ => true }

/-- Concrete configuration with deposit precision 2 and trading precision 1. -/
def state_2_1 : ContractStateV1 :=
  { admin := "admin"
    contract_name := "bridge"
    contract_type := CONTRACT_TYPE
    contract_version := CONTRACT_VERSION
    deposit_marker := deposit_prec2
    trading_marker := trading_prec1
    required_deposit_attributes := ["depattr"]
    required_withdraw_attributes := ["withattr"] }

/-- Concrete configuration with deposit precision 3 and trading precision 1. -/
def state_3_1 : ContractStateV1 :=
  { state_2_1 with deposit_marker := deposit_prec3 }

/-- Concrete configuration with deposit precision 2 and trading precision 3. -/
def state_2_3 : ContractStateV1 :=
  { state_2_1 with trading_marker := trading_prec3 }

/-- The message info of a funds-free call from "sender". -/
def sender_info : MessageInfo := { sender := "sender", funds := [] }

/-- Counterexample to C2 as stated: with deposit precision 3, trading
precision 1 and a deposit balance of 200, `fund_trading(250)` has the
sender's balance (200) strictly below the requested `trade_amount` (250),
yet the call succeeds and emits the three instructions — the code checks the
balance against `transferred_amount = 250 - 50 = 200`, after the attribute
check and the conversion, not against the full `trade_amount` as a second
step. -/
theorem fund_trading_balance_claim_counterexample :
    (test_querier 200).balance sender_info.sender state_3_1.deposit_marker.name =
      some { denom := "deposit", amount := 200 } ∧
    (200 : Nat) < 250 ∧
    fund_trading test_env (test_querier 200) (some state_3_1) sender_info 250 1 =
      some (.ok
        { messages :=
            [.transfer "contract" ⟨"deposit", 200⟩ "sender" "contract",
             .mint "contract" ⟨"trading", 2⟩,
             .withdraw "trading" "contract" "sender" [⟨"trading", 2⟩]]
          attributes :=
            [("action", "fund_trading"),
             ("contract_address", "contract"),
             ("contract_type", CONTRACT_TYPE),
             ("contract_name", "bridge"),
             ("deposit_input_denom", "deposit"),
             ("deposit_requested_amount", "250"),
             ("deposit_actual_amount", "200"),
             ("received_denom", "trading"),
             ("received_amount", "2")]
          data := none }) :=
  ⟨by rfl, by decide, by rfl⟩

/-- Witness for the amended C2 at the source's own scenario: balance 9,
`fund_trading(10)` at precisions 2 → 1 converts to target 1 with remainder 0,
so the transferred amount 10 exceeds the balance and the call fails with an
`InvalidAccountError`. -/
theorem fund_trading_insufficient_balance_witness :
    sender_info.funds = [] ∧
    check_account_has_all_attributes ((test_querier 9).attrs sender_info.sender)
      state_2_1.required_deposit_attributes 1 = some (.ok ()) ∧
    convert_denom 10 state_2_1.deposit_marker state_2_1.trading_marker =
      .ok ⟨10, 1, 0⟩ ∧
    (DenomConversion.mk 10 1 0).target_amount ≠ 0 ∧
    (test_querier 9).balance sender_info.sender state_2_1.deposit_marker.name =
      some ⟨"deposit", 9⟩ ∧
    (Coin.mk "deposit" 9).amount < 10 - (DenomConversion.mk 10 1 0).remainder ∧
    fund_trading test_env (test_querier 9) (some state_2_1) sender_info 10 1 =
      some (.error (.InvalidAccountError
        ("required [" ++ toString (10 - (DenomConversion.mk 10 1 0).remainder) ++
          "], but account only holds [" ++
          toString (Coin.mk "deposit" 9).amount ++ "]"))) :=
  ⟨rfl, by rfl, by rfl, by decide, by rfl, by decide,
    fund_trading_insufficient_balance test_env (test_querier 9) state_2_1
      sender_info 10 1 ⟨10, 1, 0⟩ ⟨"deposit", 9⟩ rfl (by rfl) (by rfl)
      (by decide) (by rfl) (by decide)⟩

/-- Witness for C3 at the spec scenario: deposit precision 2, trading
precision 1, `fund_trading(103)` with balance 103 transfers 100, mints 10 and
withdraws 10, in that order. -/
theorem fund_trading_messages_witness :
    sender_info.funds = [] ∧
    check_account_has_all_attributes ((test_querier 103).attrs sender_info.sender)
      state_2_1.required_deposit_attributes 1 = some (.ok ()) ∧
    convert_denom 103 state_2_1.deposit_marker state_2_1.trading_marker =
      .ok ⟨103, 10, 3⟩ ∧
    (DenomConversion.mk 103 10 3).target_amount ≠ 0 ∧
    (test_querier 103).balance sender_info.sender state_2_1.deposit_marker.name =
      some ⟨"deposit", 103⟩ ∧
    103 - (DenomConversion.mk 103 10 3).remainder ≤ (Coin.mk "deposit" 103).amount ∧
    (∃ r, fund_trading test_env (test_querier 103) (some state_2_1) sender_info
        103 1 = some (.ok r) ∧
      r.messages =
        [.transfer test_env.contract_address
            ⟨state_2_1.deposit_marker.name,
              103 - (DenomConversion.mk 103 10 3).remainder⟩
            sender_info.sender test_env.contract_address,
         .mint test_env.contract_address
            ⟨state_2_1.trading_marker.name,
              (DenomConversion.mk 103 10 3).target_amount⟩,
         .withdraw state_2_1.trading_marker.name test_env.contract_address
            sender_info.sender
            [⟨state_2_1.trading_marker.name,
              (DenomConversion.mk 103 10 3).target_amount⟩]]) :=
  ⟨rfl, by rfl, by rfl, by decide, by rfl, by decide,
    fund_trading_messages test_env (test_querier 103) state_2_1 sender_info
      103 1 ⟨103, 10, 3⟩ ⟨"deposit", 103⟩ rfl (by rfl) (by rfl) (by decide)
      (by rfl) (by decide)⟩

/-- C4: every successful `withdraw_trading` emits exactly, in order, the
transfer of `collected_amount = trade_amount - remainder` trading denom from
the sender to the trading marker's address, the transfer of `target_amount`
deposit denom from the contract to the sender, and the burn of
`collected_amount` trading denom administered by the contract. -/
theorem withdraw_trading_messages (env : EnvInfo) (q : QuerierEnv)
    (st : ContractStateV1) (info : MessageInfo) (trade_amount fuel : Nat)
    (conversion : DenomConversion) (coin : Coin) (marker_address : String)
    (hfunds : info.funds = [])
    (hattrs : check_account_has_all_attributes (q.attrs info.sender)
      st.required_withdraw_attributes fuel = some (.ok ()))
    (hconv : convert_denom trade_amount st.trading_marker st.deposit_marker =
      .ok conversion)
    (htarget : conversion.target_amount ≠ 0)
    (hbal : q.balance info.sender st.trading_marker.name = some coin)
    (hge : trade_amount - conversion.remainder ≤ coin.amount)
    (hmarker : q.marker st.trading_marker.name = some (some marker_address)) :
    ∃ r, withdraw_trading env q (some st) info trade_amount fuel =
        some (.ok r) ∧
      r.messages =
        [.transfer env.contract_address
            ⟨st.trading_marker.name, trade_amount - conversion.remainder⟩
            info.sender marker_address,
         .transfer env.contract_address
            ⟨st.deposit_marker.name, conversion.target_amount⟩
            env.contract_address info.sender,
         .burn env.contract_address
            ⟨st.trading_marker.name, trade_amount - conversion.remainder⟩] := by
  have hfunds' : check_funds_are_empty info = .ok () := by
    simp [check_funds_are_empty, hfunds]
  have hbal' : check_account_has_enough_denom q info.sender
      st.trading_marker.name (trade_amount - conversion.remainder) = .ok () := by
    simp [check_account_has_enough_denom, hbal, not_lt.mpr hge]
  have hmarker' : get_marker_address_for_denom q st.trading_marker.name =
      .ok marker_address := by
    simp [get_marker_address_for_denom, hmarker]
  refine
    ⟨{ messages :=
        [.transfer env.contract_address
            ⟨st.trading_marker.name, trade_amount - conversion.remainder⟩
            info.sender marker_address,
         .transfer env.contract_address
            ⟨st.deposit_marker.name, conversion.target_amount⟩
            env.contract_address info.sender,
         .burn env.contract_address
            ⟨st.trading_marker.name, trade_amount - conversion.remainder⟩]
       attributes :=
        [("action", "withdraw_trading"),
         ("contract_address", env.contract_address),
         ("contract_type", CONTRACT_TYPE),
         ("contract_name", st.contract_name),
         ("withdraw_input_denom", st.trading_marker.name),
         ("withdraw_input_amount", toString trade_amount),
         ("withdraw_actual_amount", toString (trade_amount - conversion.remainder)),
         ("received_denom", st.deposit_marker.name),
         ("received_amount", toString conversion.target_amount)]
       data := none }, ?_, rfl⟩
  simp only [withdraw_trading, hfunds', get_contract_state_v1, hattrs, hconv,
    hbal', hmarker']
  rw [if_neg htarget]

/-- Witness for C4 at the spec scenario: deposit precision 2, trading
precision 3, `withdraw_trading(4321)` with balance 4321 collects 4320 trading
denom to the marker address, releases 432 deposit denom to the sender, and
burns 4320. -/
theorem withdraw_trading_messages_witness :
    sender_info.funds = [] ∧
    check_account_has_all_attributes ((test_querier 4321).attrs sender_info.sender)
      state_2_3.required_withdraw_attributes 1 = some (.ok ()) ∧
    convert_denom 4321 state_2_3.trading_marker state_2_3.deposit_marker =
      .ok ⟨4321, 432, 1⟩ ∧
    (DenomConversion.mk 4321 432 1).target_amount ≠ 0 ∧
    (test_querier 4321).balance sender_info.sender state_2_3.trading_marker.name =
      some ⟨"trading", 4321⟩ ∧
    4321 - (DenomConversion.mk 4321 432 1).remainder ≤
      (Coin.mk "trading" 4321).amount ∧
    (test_querier 4321).marker state_2_3.trading_marker.name =
      some (some "trading-marker-addr") ∧
    (∃ r, withdraw_trading test_env (test_querier 4321) (some state_2_3)
        sender_info 4321 1 = some (.ok r) ∧
      r.messages =
        [.transfer test_env.contract_address
            ⟨state_2_3.trading_marker.name,
              4321 - (DenomConversion.mk 4321 432 1).remainder⟩
            sender_info.sender "trading-marker-addr",
         .transfer test_env.contract_address
            ⟨state_2_3.deposit_marker.name,
              (DenomConversion.mk 4321 432 1).target_amount⟩
            test_env.contract_address sender_info.sender,
         .burn test_env.contract_address
            ⟨state_2_3.trading_marker.name,
              4321 - (DenomConversion.mk 4321 432 1).remainder⟩]) :=
  ⟨rfl, by rfl, by rfl, by decide, by rfl, by decide, by rfl,
    withdraw_trading_messages test_env (test_querier 4321) state_2_3 sender_info
      4321 1 ⟨4321, 432, 1⟩ ⟨"trading", 4321⟩ "trading-marker-addr" rfl (by rfl)
      (by rfl) (by decide) (by rfl) (by decide) (by rfl)⟩

/-- C5: whenever the conversion of the trade amount toward the target denom
truncates to a zero target amount, `fund_trading` and `withdraw_trading`
each fail with an `InvalidFundsError` and emit no instructions (the error
result carries no response, and neither function writes storage). -/
theorem zero_target_conversion_rejected (env : EnvInfo) (q : QuerierEnv)
    (st : ContractStateV1) (infoF infoW : MessageInfo)
    (fund_amount withdraw_amount fuel : Nat) (convF convW : DenomConversion)
    (hfundsF : infoF.funds = []) (hfundsW : infoW.funds = [])
    (hattrsF : check_account_has_all_attributes (q.attrs infoF.sender)
      st.required_deposit_attributes fuel = some (.ok ()))
    (hattrsW : check_account_has_all_attributes (q.attrs infoW.sender)
      st.required_withdraw_attributes fuel = some (.ok ()))
    (hcF : convert_denom fund_amount st.deposit_marker st.trading_marker =
      .ok convF)
    (hF0 : convF.target_amount = 0)
    (hcW : convert_denom withdraw_amount st.trading_marker st.deposit_marker =
      .ok convW)
    (hW0 : convW.target_amount = 0) :
    fund_trading env q (some st) infoF fund_amount fuel =
      some (.error (.InvalidFundsError
        ("sent [" ++ toString fund_amount ++ st.deposit_marker.name ++
          "], but that is not enough to convert to at least one [" ++
          st.trading_marker.name ++ "]"))) ∧
    withdraw_trading env q (some st) infoW withdraw_amount fuel =
      some (.error (.InvalidFundsError
        ("sent [" ++ toString withdraw_amount ++ st.trading_marker.name ++
          "], but that is not enough to convert to at least one [" ++
          st.deposit_marker.name ++ "]"))) := by
  have hfundsF' : check_funds_are_empty infoF = .ok () := by
    simp [check_funds_are_empty, hfundsF]
  have hfundsW' : check_funds_are_empty infoW = .ok () := by
    simp [check_funds_are_empty, hfundsW]
  constructor
  · simp only [fund_trading, hfundsF', get_contract_state_v1, hattrsF, hcF]
    rw [if_pos hF0]
  · simp only [withdraw_trading, hfundsW', get_contract_state_v1, hattrsW, hcW]
    rw [if_pos hW0]

/-- Witness for C5 at the spec scenario: at deposit precision 2 and trading
precision 1, `fund_trading(9)` converts to target 0 and is rejected, and
`withdraw_trading(0)` likewise converts to target 0 and is rejected. -/
theorem zero_target_conversion_rejected_witness :
    sender_info.funds = [] ∧
    check_account_has_all_attributes ((test_querier 9).attrs sender_info.sender)
      state_2_1.required_deposit_attributes 1 = some (.ok ()) ∧
    check_account_has_all_attributes ((test_querier 9).attrs sender_info.sender)
      state_2_1.required_withdraw_attributes 1 = some (.ok ()) ∧
    convert_denom 9 state_2_1.deposit_marker state_2_1.trading_marker =
      .ok ⟨9, 0, 9⟩ ∧
    convert_denom 0 state_2_1.trading_marker state_2_1.deposit_marker =
      .ok ⟨0, 0, 0⟩ ∧
    (fund_trading test_env (test_querier 9) (some state_2_1) sender_info 9 1 =
      some (.error (.InvalidFundsError
        ("sent [" ++ toString 9 ++ state_2_1.deposit_marker.name ++
          "], but that is not enough to convert to at least one [" ++
          state_2_1.trading_marker.name ++ "]"))) ∧
    withdraw_trading test_env (test_querier 9) (some state_2_1) sender_info 0 1 =
      some (.error (.InvalidFundsError
        ("sent [" ++ toString 0 ++ state_2_1.trading_marker.name ++
          "], but that is not enough to convert to at least one [" ++
          state_2_1.deposit_marker.name ++ "]")))) :=
  ⟨rfl, by rfl, by rfl, by rfl, by rfl,
    zero_target_conversion_rejected test_env (test_querier 9) state_2_1
      sender_info sender_info 9 0 1 ⟨9, 0, 9⟩ ⟨0, 0, 0⟩ rfl rfl (by rfl)
      (by rfl) (by rfl) (by rfl) (by rfl) (by rfl)⟩

/-- Whether a result is the `MigrationError` variant. -/
def is_migration_error {α : Type} : Except ContractError α → Bool
  | .error (.MigrationError _) => true
  | _ => false

/-- C7: for parseable version stamps, `migrate_contract` fails with a
`MigrationError` exactly when the stored contract type differs from the
target type or the stored semantic version is not strictly below the target
version; otherwise it succeeds, persists the configuration restamped with the
target version, and responds with the migrate attributes and the updated
configuration as data payload. -/
theorem migrate_contract_spec (target_type target_version : String)
    (st : ContractStateV1) (sv tv : Version)
    (hsv : parse_version st.contract_version = some sv)
    (htv : parse_version target_version = some tv) :
    (is_migration_error
        (migrate_contract target_type target_version (some st)) = true ↔
      (st.contract_type ≠ target_type ∨ version_lt sv tv = false)) ∧
    (st.contract_type = target_type → version_lt sv tv = true →
      migrate_contract target_type target_version (some st) =
        .ok
          ({ messages := []
             attributes := [("action", "migrate"), ("new_version", target_version)]
             data := some { st with contract_version := target_version } },
           some { st with contract_version := target_version })) := by
  by_cases htype : target_type = st.contract_type
  · have hval : validate_migration target_type target_version st =
        (if version_lt sv tv = true then .ok ()
         else .error (.MigrationError
          ("target migration contract version [" ++ target_version ++
            "] is too low to use. stored contract version is [" ++
            st.contract_version ++ "]"))) := by
      simp only [validate_migration, hsv, htv]
      rw [if_neg (by simp [htype])]
    cases hver : version_lt sv tv
    · have hmig : migrate_contract target_type target_version (some st) =
          .error (.MigrationError
            ("target migration contract version [" ++ target_version ++
              "] is too low to use. stored contract version is [" ++
              st.contract_version ++ "]")) := by
        simp [migrate_contract, get_contract_state_v1, hval, hver]
      constructor
      · rw [hmig]
        simp [is_migration_error, hver]
      · intro _ hv
        exact Bool.noConfusion hv
    · have hmig : migrate_contract target_type target_version (some st) =
          .ok
            ({ messages := []
               attributes := [("action", "migrate"), ("new_version", target_version)]
               data := some { st with contract_version := target_version } },
             some { st with contract_version := target_version }) := by
        simp [migrate_contract, get_contract_state_v1, hval, hver]
      constructor
      · rw [hmig]
        constructor
        · intro h
          simp [is_migration_error] at h
        · intro h
          rcases h with h | h
          · exact absurd htype.symm h
          · exact Bool.noConfusion h
      · intro _ _
        exact hmig
  · have htype' : target_type ≠ st.contract_type := htype
    have hval : validate_migration target_type target_version st =
        .error (.MigrationError
          ("target migration contract type [" ++ target_type ++
            "] does not match stored contract type [" ++
            st.contract_type ++ "]")) := by
      simp only [validate_migration]
      rw [if_pos htype']
    constructor
    · constructor
      · intro _
        exact Or.inl (fun h => htype h.symm)
      · intro _
        simp [migrate_contract, get_contract_state_v1, hval, is_migration_error]
    · intro heq _
      exact absurd heq.symm htype

/-- Concrete stored configuration at version 0.0.1 for the migration
witness. -/
def migrate_state : ContractStateV1 :=
  { state_2_1 with contract_type := "bridge_type", contract_version := "0.0.1" }

/-- Witness for C7: stored type "bridge_type" at version 0.0.1 migrated to
the same type at version 1.0.0 is not a `MigrationError`, and it succeeds,
restamping and persisting version 1.0.0. -/
theorem migrate_contract_spec_witness :
    parse_version migrate_state.contract_version = some ⟨0, 0, 1⟩ ∧
    parse_version "1.0.0" = some ⟨1, 0, 0⟩ ∧
    ((is_migration_error
        (migrate_contract "bridge_type" "1.0.0" (some migrate_state)) = true ↔
      (migrate_state.contract_type ≠ "bridge_type" ∨
        version_lt ⟨0, 0, 1⟩ ⟨1, 0, 0⟩ = false)) ∧
    (migrate_state.contract_type = "bridge_type" →
      version_lt ⟨0, 0, 1⟩ ⟨1, 0, 0⟩ = true →
      migrate_contract "bridge_type" "1.0.0" (some migrate_state) =
        .ok
          ({ messages := []
             attributes := [("action", "migrate"), ("new_version", "1.0.0")]
             data := some { migrate_state with contract_version := "1.0.0" } },
           some { migrate_state with contract_version := "1.0.0" }))) :=
  ⟨by rfl, by rfl,
    migrate_contract_spec "bridge_type" "1.0.0" migrate_state ⟨0, 0, 1⟩
      ⟨1, 0, 0⟩ (by rfl) (by rfl)⟩

/-- C8: for every sender other than the stored admin, each of the three
admin-only operations fails with a `NotAuthorizedError`; the error result
carries no updated storage, so the stored configuration is unchanged. -/
theorem admin_ops_require_admin (env : EnvInfo) (q : QuerierEnv)
    (st : ContractStateV1) (info : MessageInfo) (new_admin_address : String)
    (attrsD attrsW : List String)
    (hfunds : info.funds = [])
    (hsender : info.sender ≠ st.admin) :
    admin_update_admin env q (some st) info new_admin_address =
      .error (.NotAuthorizedError "only the contract admin may change the admin") ∧
    admin_update_deposit_required_attributes env (some st) info attrsD =
      .error (.NotAuthorizedError
        "only the contract admin may update attributes") ∧
    admin_update_withdraw_required_attributes env (some st) info attrsW =
      .error (.NotAuthorizedError
        "only the contract admin may update attributes") := by
  have hfunds' : check_funds_are_empty info = .ok () := by
    simp [check_funds_are_empty, hfunds]
  refine ⟨?_, ?_, ?_⟩
  · simp only [admin_update_admin, hfunds', get_contract_state_v1]
    rw [if_pos hsender]
  · simp only [admin_update_deposit_required_attributes, hfunds',
      get_contract_state_v1]
    rw [if_pos hsender]
  · simp only [admin_update_withdraw_required_attributes, hfunds',
      get_contract_state_v1]
    rw [if_pos hsender]

/-- Witness for C8: the sender "mallory" is not the stored admin "admin", and
all three admin operations reject with `NotAuthorizedError`. -/
theorem admin_ops_require_admin_witness :
    (MessageInfo.mk "mallory" []).funds = [] ∧
    (MessageInfo.mk "mallory" []).sender ≠ state_2_1.admin ∧
    (admin_update_admin test_env (test_querier 0) (some state_2_1)
        (MessageInfo.mk "mallory" []) "new-admin" =
      .error (.NotAuthorizedError "only the contract admin may change the admin") ∧
    admin_update_deposit_required_attributes test_env (some state_2_1)
        (MessageInfo.mk "mallory" []) ["a.b"] =
      .error (.NotAuthorizedError
        "only the contract admin may update attributes") ∧
    admin_update_withdraw_required_attributes test_env (some state_2_1)
        (MessageInfo.mk "mallory" []) ["c.d"] =
      .error (.NotAuthorizedError
        "only the contract admin may update attributes")) :=
  ⟨rfl, by decide,
    admin_ops_require_admin test_env (test_querier 0) state_2_1
      (MessageInfo.mk "mallory" []) "new-admin" ["a.b"] ["c.d"] rfl (by decide)⟩

/-- A host that forever reports a non-empty continuation key and never
supplies any attribute: every page is empty with `next_key = [0]`. -/
def hostile_attr_querier : Option (List Nat) → AttrsResponse :=
  fun _ => { attributes := [], page_block := some { next_key := some [0] } }

/-- Against the hostile host, the pagination loop never resolves: every page
leaves the requirements unmet and supplies a non-empty continuation key, so
the loop runs on for any number of pages. -/
theorem check_attrs_loop_hostile (fuel : Nat) (remaining : List String)
    (h : remaining.isEmpty = false) :
    check_attrs_loop hostile_attr_querier fuel (hostile_attr_querier none)
      remaining = none := by
  induction fuel generalizing remaining with
  | zero => rfl
  | succ n ih =>
    have hfilter : remaining.filter
        (fun name => ! (hostile_attr_querier none).attributes.contains name) =
        remaining := by
      simp [hostile_attr_querier]
    simp only [check_attrs_loop, hfilter, h]
    rw [if_neg (by simp [h])]
    exact ih remaining h

/-- C9 (evaluating the code at the failing input): the source's attribute
pagination loop has no maximum page count — against a host that keeps
reporting a non-empty continuation cursor without ever supplying the required
attribute name, `check_account_has_all_attributes` is still running after any
number of fetched pages, so the check does not terminate.  (With an empty
required list it does return success without querying, per the second
conjunct.) -/
theorem check_attrs_no_page_bound :
    (∀ fuel : Nat,
      check_account_has_all_attributes hostile_attr_querier ["kyc"] fuel =
        none) ∧
    (∀ fuel : Nat,
      check_account_has_all_attributes hostile_attr_querier [] fuel =
        some (.ok ())) := by
  constructor
  · intro fuel
    have h : (["kyc"] : List String).isEmpty = false := by decide
    simp only [check_account_has_all_attributes]
    rw [if_neg (by simp)]
    exact check_attrs_loop_hostile fuel ["kyc"] h
  · intro fuel
    rfl

/-- C10: a successful instantiation persists exactly the record built by
`ContractStateV1.new` from the message fields — its admin is the message
sender (the instantiate message carries no admin field), its type and version
are the crate constants — and loading the configuration from the resulting
storage yields that same record. -/
theorem instantiate_stores_sender_admin (env : EnvInfo) (info : MessageInfo)
    (msg : InstantiateMsg) (resp : Response) (new_storage : Storage)
    (h : instantiate_contract env info msg = .ok (resp, new_storage)) :
    ∃ st, new_storage = some st ∧
      st = ContractStateV1.new info.sender msg.contract_name msg.deposit_marker
        msg.trading_marker msg.required_deposit_attributes
        msg.required_withdraw_attributes ∧
      st.admin = info.sender ∧
      st.contract_type = CONTRACT_TYPE ∧
      st.contract_version = CONTRACT_VERSION ∧
      get_contract_state_v1 new_storage = .ok st := by
  cases hfe : check_funds_are_empty info with
  | error e =>
    simp only [instantiate_contract, hfe] at h
    exact Except.noConfusion h
  | ok u =>
    cases u
    cases hnb : msg.name_to_bind with
    | none =>
      simp only [instantiate_contract, hfe, hnb, Except.ok.injEq,
        Prod.mk.injEq] at h
      refine ⟨_, h.2.symm, rfl, rfl, rfl, rfl, ?_⟩
      rw [h.2.symm]
      rfl
    | some name =>
      cases hbind : msg_bind_name name env.contract_address true with
      | error e =>
        simp only [instantiate_contract, hfe, hnb, hbind] at h
        exact Except.noConfusion h
      | ok bind_msg =>
        simp only [instantiate_contract, hfe, hnb, hbind, Except.ok.injEq,
          Prod.mk.injEq] at h
        refine ⟨_, h.2.symm, rfl, rfl, rfl, rfl, ?_⟩
        rw [h.2.symm]
        rfl

/-- Witness for C10: instantiating as "creator" with the scenario message and
no name binding stores the record with admin "creator" and the crate
constants, and a subsequent load returns it. -/
theorem instantiate_stores_sender_admin_witness :
    instantiate_contract test_env (MessageInfo.mk "creator" [])
        (InstantiateMsg.mk "bridge" deposit_prec2 trading_prec1 ["depattr"]
          ["withattr"] none) =
      .ok
        ({ messages := []
           attributes :=
            [("action", "instantiate"),
             ("contract_name", "bridge"),
             ("deposit_marker_name", "deposit"),
             ("trading_marker_name", "trading")]
           data := none },
         some (ContractStateV1.new "creator" "bridge" deposit_prec2
           trading_prec1 ["depattr"] ["withattr"])) ∧
    (∃ st, (some (ContractStateV1.new "creator" "bridge" deposit_prec2
          trading_prec1 ["depattr"] ["withattr"]) : Storage) = some st ∧
      st = ContractStateV1.new (MessageInfo.mk "creator" []).sender "bridge"
        deposit_prec2 trading_prec1 ["depattr"] ["withattr"] ∧
      st.admin = (MessageInfo.mk "creator" []).sender ∧
      st.contract_type = CONTRACT_TYPE ∧
      st.contract_version = CONTRACT_VERSION ∧
      get_contract_state_v1 (some (ContractStateV1.new "creator" "bridge"
        deposit_prec2 trading_prec1 ["depattr"] ["withattr"])) = .ok st) :=
  ⟨by rfl,
    instantiate_stores_sender_admin test_env (MessageInfo.mk "creator" [])
      (InstantiateMsg.mk "bridge" deposit_prec2 trading_prec1 ["depattr"]
        ["withattr"] none)
      { messages := []
        attributes :=
          [("action", "instantiate"),
           ("contract_name", "bridge"),
           ("deposit_marker_name", "deposit"),
           ("trading_marker_name", "trading")]
        data := none }
      (some (ContractStateV1.new "creator" "bridge" deposit_prec2 trading_prec1
        ["depattr"] ["withattr"]))
      (by rfl)⟩

end FundingBridge
